import Mathlib

/-!
Verification of the WebScraping repository against its specification.

The development shallowly embeds the parts of the code the claims are
about:

* `src/utils/action_tracker.py` (`ActionTracker`) as a Lean structure with
  explicit state passing; wall-clock timestamps become explicit `String`
  parameters.
* `src/utils/script_generator.py` (`PlaywrightScriptGenerator.generate`)
  as a pure function from the action list, the query and the
  generation-timestamp string to the list of emitted lines.  Python dict
  entries become optional fields (`none` models an absent key or `None`);
  numeric payloads that are only ever interpolated into the output are
  held as their printed representation.
* `src/agents/product_search_agent.py` (`find_search_box_universal`,
  `click_product_image`): the live page is modelled as an oracle of the
  query results the code observes (visibility probes, `query_selector`
  hits, the parsed reply of the Language Inference Service, the
  BeautifulSoup fallback).  The code trusts each query independently, so
  the embedding does likewise.
-/

/-! ## String helpers (ASCII, mirroring Python `in`, `.lower()`, `.split()`) -/

/-- ASCII lower-casing of one character, as Python `str.lower` acts on the
ASCII strings used by the repository. -/
def charLower (c : Char) : Char :=
  if 'A' ≤ c && c ≤ 'Z' then Char.ofNat (c.toNat + 32) else c

/-- ASCII lower-casing of a string (Python `str.lower`). -/
def strLower (s : String) : String := ⟨s.data.map charLower⟩

/-- Boolean list-prefix test. -/
def listIsPrefixOf : List Char → List Char → Bool
  | [], _ => true
  | _ :: _, [] => false
  | p :: ps, c :: cs => p == c && listIsPrefixOf ps cs

/-- `listDiverges p q` holds when `p` and `q` provably disagree inside
their common length, so `p` can never be a prefix of any extension of
`q`. -/
def listDiverges : List Char → List Char → Bool
  | [], _ => false
  | _ :: _, [] => false
  | p :: ps, c :: cs => p != c || listDiverges ps cs

/-- Boolean contiguous-sublist test (Python `needle in hay` on strings). -/
def listHasInfix (needle : List Char) : List Char → Bool
  | [] => needle.isEmpty
  | c :: cs => listIsPrefixOf needle (c :: cs) || listHasInfix needle cs

/-- Python `sub in s` for strings. -/
def strContains (s sub : String) : Bool := listHasInfix sub.data s.data

/-- Boolean string-prefix test. -/
def strStarts (p s : String) : Bool := listIsPrefixOf p.data s.data

theorem data_append (s t : String) : (s ++ t).data = s.data ++ t.data := by
  cases s; cases t; rfl

theorem str_append_assoc (a b c : String) : (a ++ b) ++ c = a ++ (b ++ c) := by
  cases a with | mk la =>
  cases b with | mk lb =>
  cases c with | mk lc =>
  show String.mk ((la ++ lb) ++ lc) = String.mk (la ++ (lb ++ lc))
  rw [List.append_assoc]

theorem prefix_append_self : ∀ (p t : List Char), listIsPrefixOf p (p ++ t) = true := by
  intro p
  induction p with
  | nil => intro t; rfl
  | cons c cs ih => intro t; simp [listIsPrefixOf, ih]

theorem diverges_not_prefixOf :
    ∀ (p f t : List Char), listDiverges p f = true → listIsPrefixOf p (f ++ t) = false := by
  intro p
  induction p with
  | nil => intro f t h; simp [listDiverges] at h
  | cons x xs ih =>
    intro f t h
    cases f with
    | nil => simp [listDiverges] at h
    | cons y ys =>
      simp [listDiverges] at h
      simp [listIsPrefixOf]
      intro hxy
      rcases h with h | h
      · exact absurd hxy h
      · exact ih ys t h

theorem diverges_ne_append :
    ∀ (a b t u : List Char), listDiverges a b = true → a ++ t ≠ b ++ u := by
  intro a
  induction a with
  | nil => intro b t u h; simp [listDiverges] at h
  | cons x xs ih =>
    intro b t u h
    cases b with
    | nil => simp [listDiverges] at h
    | cons y ys =>
      simp [listDiverges] at h
      intro heq
      simp [List.cons_append] at heq
      rcases h with h | h
      · exact h heq.1
      · exact ih ys t u h heq.2

theorem str_ne_of_diverge (a b t u : String)
    (h : listDiverges a.data b.data = true) : a ++ t ≠ b ++ u := by
  intro he
  have hdata := congrArg String.data he
  rw [data_append, data_append] at hdata
  exact diverges_ne_append _ _ _ _ h hdata

theorem str_ne_lit_of_diverge (a t c : String)
    (h : listDiverges a.data c.data = true) : a ++ t ≠ c := by
  intro he
  have hdata := congrArg String.data he
  rw [data_append] at hdata
  have : a.data ++ t.data = c.data ++ ([] : List Char) := by simpa using hdata
  exact diverges_ne_append _ _ _ _ h this

/-! ## ActionTracker (`src/utils/action_tracker.py`) -/

namespace WS

/-- One tracked action: the dict built by `ActionTracker.add_action`.
`type` and `timestamp` are always present; every other field models a
keyword argument, with `none` standing for an absent key (or a `None`
value).  Numeric payloads (`seconds`) are held as their printed
representation, `timeout` as a natural number. -/
structure Action where
  type : String
  timestamp : String := ""
  url : Option String := none
  selector : Option String := none
  element_type : Option String := none
  text : Option String := none
  key : Option String := none
  wait_type : Option String := none
  timeout : Option Nat := none
  seconds : Option String := none
deriving Repr, DecidableEq

/-- The `ActionTracker` object state: the list of recorded actions plus
the optional start/stop wall-clock timestamps. -/
structure ActionTracker where
  actions : List Action := []
  start_time : Option String := none
  end_time : Option String := none
deriving Repr, DecidableEq

namespace ActionTracker

/-- `ActionTracker.__init__`. -/
def init : ActionTracker := {}

/-- `ActionTracker.start`: records the start time and resets the list.
`now` models `datetime.now()`. -/
def start (t : ActionTracker) (now : String) : ActionTracker :=
  { t with start_time := some now, actions := [] }

/-- `ActionTracker.stop`: records the end time.  Nothing else changes. -/
def stop (t : ActionTracker) (now : String) : ActionTracker :=
  { t with end_time := some now }

/-- `ActionTracker.add_action`: builds the action dict from the type, the
current timestamp and the keyword arguments `kw` (whose `type` and
`timestamp` fields are overwritten) and appends it. -/
def add_action (t : ActionTracker) (action_type now : String) (kw : Action) : ActionTracker :=
  { t with actions := t.actions ++ [{ kw with type := action_type, timestamp := now }] }

/-- `ActionTracker.add_navigation`. -/
def add_navigation (t : ActionTracker) (now url : String) : ActionTracker :=
  t.add_action "navigate" now { type := "", url := some url }

/-- `ActionTracker.add_click` (`element_type` defaults to `"element"` at
the call sites that omit it). -/
def add_click (t : ActionTracker) (now selector element_type : String) : ActionTracker :=
  t.add_action "click" now { type := "", selector := some selector, element_type := some element_type }

/-- `ActionTracker.add_fill`. -/
def add_fill (t : ActionTracker) (now selector text : String) : ActionTracker :=
  t.add_action "fill" now { type := "", selector := some selector, text := some text }

/-- `ActionTracker.add_press`. -/
def add_press (t : ActionTracker) (now selector key : String) : ActionTracker :=
  t.add_action "press" now { type := "", selector := some selector, key := some key }

/-- `ActionTracker.add_wait` (`timeout` and `selector` default to `None`). -/
def add_wait (t : ActionTracker) (now wait_type : String)
    (timeout : Option Nat) (selector : Option String) : ActionTracker :=
  t.add_action "wait" now { type := "", wait_type := some wait_type, timeout := timeout, selector := selector }

/-- `ActionTracker.add_sleep` (`seconds` as its printed representation). -/
def add_sleep (t : ActionTracker) (now seconds : String) : ActionTracker :=
  t.add_action "sleep" now { type := "", seconds := some seconds }

/-- `ActionTracker.get_actions`. -/
def get_actions (t : ActionTracker) : List Action := t.actions

/-- `ActionTracker.clear`. -/
def clear (_ : ActionTracker) : ActionTracker := {}

/-- One append call made against the tracker: either a raw `add_action`
or one of the `add_*` helpers, each carrying the wall-clock timestamp of
the moment it runs. -/
inductive AppendCall where
  | action (action_type now : String) (kw : Action)
  | navigation (now url : String)
  | click (now selector element_type : String)
  | fill (now selector text : String)
  | press (now selector key : String)
  | wait (now wait_type : String) (timeout : Option Nat) (selector : Option String)
  | sleep (now seconds : String)
deriving Repr, DecidableEq

/-- Dispatch one append call to the tracker method it names. -/
def applyCall (t : ActionTracker) : AppendCall → ActionTracker
  | .action ty now kw => t.add_action ty now kw
  | .navigation now url => t.add_navigation now url
  | .click now sel et => t.add_click now sel et
  | .fill now sel text => t.add_fill now sel text
  | .press now sel key => t.add_press now sel key
  | .wait now wt timeout sel => t.add_wait now wt timeout sel
  | .sleep now secs => t.add_sleep now secs

/-- The action record a given append call stores. -/
def recordOf : AppendCall → Action
  | .action ty now kw => { kw with type := ty, timestamp := now }
  | .navigation now url => { type := "navigate", timestamp := now, url := some url }
  | .click now sel et => { type := "click", timestamp := now, selector := some sel, element_type := some et }
  | .fill now sel text => { type := "fill", timestamp := now, selector := some sel, text := some text }
  | .press now sel key => { type := "press", timestamp := now, selector := some sel, key := some key }
  | .wait now wt timeout sel => { type := "wait", timestamp := now, wait_type := some wt, timeout := timeout, selector := sel }
  | .sleep now secs => { type := "sleep", timestamp := now, seconds := some secs }

/-- Run a sequence of append calls against a tracker. -/
def run (t : ActionTracker) (calls : List AppendCall) : ActionTracker :=
  calls.foldl applyCall t

theorem applyCall_eq (t : ActionTracker) (c : AppendCall) :
    applyCall t c = { t with actions := t.actions ++ [recordOf c] } := by
  cases c <;> rfl

theorem run_actions :
    ∀ (calls : List AppendCall) (t : ActionTracker),
      (t.run calls).actions = t.actions ++ calls.map recordOf := by
  intro calls
  induction calls with
  | nil => intro t; simp [run]
  | cons c cs ih =>
    intro t
    show ((applyCall t c).run cs).actions = _
    rw [ih, applyCall_eq]
    simp

end ActionTracker

/-! ## Script generator (`src/utils/script_generator.py`) -/

/-- The image-broadening test of `PlaywrightScriptGenerator.generate`,
line 55: `"product_image" in element_type or "image" in
element_type.lower()`. -/
def isImageElementType (element_type : String) : Bool :=
  listHasInfix "product_image".data element_type.data ||
    listHasInfix "image".data (strLower element_type).data

/-- Python truthiness of an optional selector string: absent/`None` and
the empty string are falsy. -/
def selectorTruthy : Option String → Bool
  | none => false
  | some s => !(s == "")

/-- The literal `wait_for_selector` line emitted for non-image clicks
(line 73) and key presses (line 93). -/
def waitSelLine (selector : String) : String :=
  "        element = await page.wait_for_selector(\"" ++ (selector ++ "\", timeout=5000)")

/-- Header of the generated script (lines 20-36 of the source); `ts`
models the `datetime.now().strftime(...)` value interpolated at line 22,
`query` the `self.query` attribute. -/
def headerLines (query ts : String) : List String :=
  ["\"\"\"",
   "Auto-generated Playwright test script",
   "Generated from execution on: " ++ ts]
  ++ (if query == "" then [] else ["Original query: " ++ query])
  ++ ["\"\"\"", "import asyncio",
      "from playwright.async_api import async_playwright",
      "", "",
      "async def test_auto_generated():",
      "    \"\"\"Auto-generated test based on actual execution.\"\"\"",
      "    browser = await async_playwright().start()",
      "    chromium = await browser.chromium.launch(headless=False, slow_mo=500)",
      "    page = await chromium.new_page()",
      "",
      "    try:"]

/-- The lines the loop body of `generate` (source lines 40-115) emits
for the record at (0-based) position `i`. -/
def actionLines (i : Nat) (action : Action) : List String :=
  if action.type == "navigate" then
    let url := action.url.getD ""
    ["        # Step " ++ (toString (i+1) ++ (": Navigate to " ++ url)),
     "        await page.goto(\"" ++ (url ++ "\", wait_until=\"networkidle\")"),
     "        await asyncio.sleep(2)",
     ""]
  else if action.type == "click" then
    let selector := action.selector.getD ""
    let element_type := action.element_type.getD "element"
    if isImageElementType element_type then
      ["        # Step " ++ (toString (i+1) ++ (": Click " ++ element_type)),
       "        # Find product image (using flexible selector)",
       "        images = await page.query_selector_all(\"img\")",
       "        for img in images:",
       "            try:",
       "                is_visible = await img.is_visible()",
       "                if is_visible:",
       "                    await img.scroll_into_view_if_needed()",
       "                    await img.click()",
       "                    break",
       "            except:",
       "                continue",
       "        await asyncio.sleep(2)",
       "        await page.wait_for_load_state(\"networkidle\", timeout=10000)",
       ""]
    else
      ["        # Step " ++ (toString (i+1) ++ (": Click " ++ element_type)),
       waitSelLine selector,
       "        await element.click()",
       "        await asyncio.sleep(1)",
       ""]
  else if action.type == "fill" then
    let selector := action.selector.getD ""
    let text := action.text.getD ""
    ["        # Step " ++ (toString (i+1) ++ ": Fill input field"),
     "        input = await page.wait_for_selector(\"" ++ (selector ++ "\", timeout=5000, state=\"visible\")"),
     "        await input.click()",
     "        await input.fill(\"\")",
     "        await input.fill(\"" ++ (text ++ "\")"),
     "        await asyncio.sleep(0.5)",
     ""]
  else if action.type == "press" then
    let selector := action.selector.getD ""
    let key := action.key.getD "Enter"
    ["        # Step " ++ (toString (i+1) ++ (": Press key \x27" ++ (key ++ "\x27"))),
     waitSelLine selector,
     "        await element.press(\"" ++ (key ++ "\")"),
     "        await asyncio.sleep(1)",
     ""]
  else if action.type == "wait" then
    let wait_type := action.wait_type.getD "load"
    let timeout := action.timeout.getD 10000
    (if wait_type == "load" then
       ["        # Step " ++ (toString (i+1) ++ ": Wait for page load"),
        "        await page.wait_for_load_state(\"networkidle\", timeout=" ++ (toString timeout ++ ")")]
     else if wait_type == "selector" && selectorTruthy action.selector then
       ["        # Step " ++ (toString (i+1) ++ ": Wait for selector"),
        "        await page.wait_for_selector(\"" ++ (action.selector.getD "" ++ ("\", timeout=" ++ (toString timeout ++ ")")))]
     else []) ++ [""]
  else if action.type == "sleep" then
    let seconds := action.seconds.getD "1"
    ["        # Step " ++ (toString (i+1) ++ (": Wait " ++ (seconds ++ " seconds"))),
     "        await asyncio.sleep(" ++ (seconds ++ ")"),
     ""]
  else []

/-- Footer of the generated script (source lines 117-134). -/
def footerLines : List String :=
  ["        print(\x27Test completed successfully\x27)",
   "        print(f\"Final URL: \x7bpage.url\x7d\")",
   "        print(f\"Final title: \x7bawait page.title()\x7d\")",
   "        await asyncio.sleep(5)",
   "",
   "    except Exception as e:",
   "        print(f\"Test failed: \x7bstr(e)\x7d\")",
   "        import traceback", "        traceback.print_exc()",
   "",
   "    finally:",
   "        await chromium.close()",
   "        await browser.stop()",
   "",
   "",
   "if __name__ == \"__main__\":",
   "    asyncio.run(test_auto_generated())"]

/-- The loop of `generate`: emit each record in order with its 0-based
enumeration index. -/
def actionsLines (i : Nat) : List Action → List String
  | [] => []
  | a :: rest => actionLines i a ++ actionsLines (i+1) rest

/-- `PlaywrightScriptGenerator.generate` as the list of emitted lines;
`query` is the constructor argument, `ts` the generation timestamp read
from the clock at line 22. -/
def generateLines (actions : List Action) (query ts : String) : List String :=
  headerLines query ts ++ actionsLines 0 actions ++ footerLines

/-- `PlaywrightScriptGenerator.generate`: the final
`"\n".join(lines)`. -/
def generate (actions : List Action) (query ts : String) : String :=
  String.intercalate "\n" (generateLines actions query ts)

/-- A line is a step annotation when it starts with the eight-space
indent followed by the `# Step ` marker. -/
def isStepLine (l : String) : Bool := strStarts "        # Step " l

/-- The step-annotation line `generate` emits for the record at position
`i` (empty for an unknown type). -/
def stepHeader (i : Nat) (a : Action) : String :=
  if a.type == "navigate" then
    "        # Step " ++ (toString (i+1) ++ (": Navigate to " ++ a.url.getD ""))
  else if a.type == "click" then
    "        # Step " ++ (toString (i+1) ++ (": Click " ++ a.element_type.getD "element"))
  else if a.type == "fill" then
    "        # Step " ++ (toString (i+1) ++ ": Fill input field")
  else if a.type == "press" then
    "        # Step " ++ (toString (i+1) ++ (": Press key \x27" ++ (a.key.getD "Enter" ++ "\x27")))
  else if a.type == "wait" then
    (if a.wait_type.getD "load" == "load" then
       "        # Step " ++ (toString (i+1) ++ ": Wait for page load")
     else
       "        # Step " ++ (toString (i+1) ++ ": Wait for selector"))
  else if a.type == "sleep" then
    "        # Step " ++ (toString (i+1) ++ (": Wait " ++ (a.seconds.getD "1" ++ " seconds")))
  else ""

/-- The expected step annotations for a log, one per record, numbered
from enumeration index `i`. -/
def stepHeaders (i : Nat) : List Action → List String
  | [] => []
  | a :: rest => stepHeader i a :: stepHeaders (i+1) rest

/-- A record the generator compiles to exactly one step block: one of
the six known types, where a `wait` record must carry `wait_type`
`"load"`, or `"selector"` together with a truthy selector (otherwise the
`wait` branch of the source emits no step at all). -/
def wellFormedAction (a : Action) : Bool :=
  a.type == "navigate" || a.type == "click" || a.type == "fill" ||
  a.type == "press" || a.type == "sleep" ||
  (a.type == "wait" &&
    (a.wait_type.getD "load" == "load" ||
     (a.wait_type.getD "load" == "selector" && selectorTruthy a.selector)))

/-! ## Product search agent (`src/agents/product_search_agent.py`) -/

/-- The Apple-specific input selectors tried after opening the search
menu (source lines 186-192). -/
def appleInputSelectors : List String :=
  ["#ac-gn-searchform-input",
   "input.ac-gn-searchform-input",
   "input[type=\x27search\x27]",
   "input[name=\x27q\x27]",
   "input[aria-label*=\x27Search\x27 i]"]

/-- The tier-2 generic static selector patterns (source lines 209-227). -/
def commonSelectors : List String :=
  ["input[type=\x27search\x27]",
   "input[type=\x27text\x27][name*=\x27search\x27 i]",
   "input[type=\x27text\x27][id*=\x27search\x27 i]",
   "input[type=\x27text\x27][placeholder*=\x27Search\x27 i]",
   "input[type=\x27text\x27][placeholder*=\x27search\x27 i]",
   "input[name=\x27q\x27]",
   "input[name=\x27search\x27]",
   "input[id=\x27search\x27]",
   "input[id=\x27searchbox\x27]",
   "#search",
   "#searchbox",
   ".search input",
   ".searchbox input",
   "input[aria-label*=\x27Search\x27 i]",
   "input[aria-label*=\x27search\x27 i]",
   "form[action*=\x27search\x27 i] input",
   "form[method=\x27get\x27] input[type=\x27text\x27]"]

/-- The submit-button candidates tried once a tier-2 input matched
(source lines 242-249). -/
def buttonSelectorsFor (selector : String) : List String :=
  ["button[type=\x27submit\x27]",
   "input[type=\x27submit\x27]",
   "button.search",
   "button[aria-label*=\x27Search\x27 i]",
   "form button",
   "form:has(" ++ (selector ++ ") button")]

/-- Oracle model of the live page as `find_search_box_universal`
observes it: `visible sel` is the success of
`wait_for_selector(sel, state="visible")`, `present sel` the success of
`query_selector(sel)`, `aiSelector` the parsed reply of the Language
Inference Service when it is reachable and yields a truthy
`input_selector` (Strategy 2, source lines 271-321), and `soupSelector`
the selector the BeautifulSoup scan synthesizes when some text/search
input carries a search keyword (Strategy 3, source lines 324-352). -/
structure Page where
  url : String
  visible : String → Bool
  present : String → Bool
  aiSelector : Option (String × Option String) := none
  soupSelector : Option String := none

/-- The dict `find_search_box_universal` returns: `found` plus the
optional `input_selector`, `button_selector` and `method` keys.  The
source never stores any further key in this dict. -/
structure SearchBoxResult where
  found : Bool
  input_selector : Option String := none
  button_selector : Option String := none
  method : Option String := none
deriving Repr, DecidableEq

/-- Button selector paired with an Apple-specific hit (source line 202). -/
def appleButton : String :=
  "button.ac-gn-searchform-submit, button[type=\x27submit\x27]"

/-- Button selector paired with a BeautifulSoup hit (source line 348). -/
def soupButton : String :=
  "button[type=\x27submit\x27], input[type=\x27submit\x27]"

/-- `ProductSearchAgent.find_search_box_universal` (source lines
155-358).  The second component reports whether the Language Inference
Service was invoked (the OpenAI call of Strategy 2).  Icon clicks in the
Apple branch only reveal the input and are not modelled; `visible`
already describes the page the selectors are probed against. -/
def find_search_box_universal (page : Page) : SearchBoxResult × Bool :=
  let appleHit : Option SearchBoxResult :=
    if strContains (strLower page.url) "apple.com" then
      match appleInputSelectors.find? page.visible with
      | some sel =>
        some { found := true, input_selector := some sel,
               button_selector := some appleButton, method := some "apple_specific" }
      | none => none
    else none
  match appleHit with
  | some r => (r, false)
  | none =>
    match commonSelectors.find? page.visible with
    | some sel =>
      ({ found := true, input_selector := some sel,
         button_selector := (buttonSelectorsFor sel).find? page.present,
         method := some "direct_selector" }, false)
    | none =>
      match page.aiSelector with
      | some (inp, btn) =>
        ({ found := true, input_selector := some inp,
           button_selector := btn, method := some "ai_detected" }, true)
      | none =>
        match page.soupSelector with
        | some sel =>
          ({ found := true, input_selector := some sel,
             button_selector := some soupButton, method := some "html_parsing" }, true)
        | none => ({ found := false }, true)

/-! ### Image adjacency (`click_product_image`, source lines 625-830) -/

/-- Oracle model of the DOM as `click_product_image` queries it,
elements named by numbers: `tag` is `el.tagName.toLowerCase()`,
`queryImg` the first hit of `el.query_selector("img")`, `parent`,
`prevSibling`, `nextSibling` the corresponding `evaluate_handle`
results, `textContent` the `text_content()` value and `visible` the
`is_visible()` probe.  The code consults each query independently, so
the model does too. -/
structure Dom where
  tag : Nat → String
  textContent : Nat → String
  queryImg : Nat → Option Nat
  parent : Nat → Option Nat
  prevSibling : Nat → Option Nat
  nextSibling : Nat → Option Nat
  visible : Nat → Bool

/-- Step 6 of the adjacency walk: climb up to `fuel` ancestor levels and
return the first ancestor-contained image (source lines 722-739). -/
def ancestorImg (d : Dom) : Nat → Nat → Option Nat
  | 0, _ => none
  | fuel+1, cur =>
    match d.parent cur with
    | none => none
    | some p =>
      match d.queryImg p with
      | some i => some i
      | none => ancestorImg d fuel p

/-- The adjacency search of `click_product_image` for one matched text
element (source lines 672-739): the element itself if it is an image,
else a descendant image, else the parent, else the grandparent, else the
previous then the next sibling, else up to 5 ancestor levels. -/
def findAdjacentImage (d : Dom) (el : Nat) : Option Nat :=
  if d.tag el == "img" then some el
  else
    match d.queryImg el with
    | some i => some i
    | none =>
      match (d.parent el).bind d.queryImg with
      | some i => some i
      | none =>
        match ((d.parent el).bind d.parent).bind d.queryImg with
        | some i => some i
        | none =>
          match (d.prevSibling el).bind d.queryImg with
          | some i => some i
          | none =>
            match (d.nextSibling el).bind d.queryImg with
            | some i => some i
            | none => ancestorImg d 5 el

/-- Python `str.split()` on the space-separated product names the agent
handles: split into maximal space-free words. -/
def splitWsAux : List Char → List Char → List (List Char)
  | [], acc => if acc.isEmpty then [] else [acc.reverse]
  | c :: cs, acc =>
    if c == ' ' then
      (if acc.isEmpty then splitWsAux cs [] else acc.reverse :: splitWsAux cs [])
    else splitWsAux cs (c :: acc)

/-- `product_name.lower().split()` (source lines 636-637). -/
def productKeywords (product_name : String) : List String :=
  (splitWsAux (strLower product_name).data []).map String.mk

/-- The keyword gate of the element loop (source line 666):
`all(keyword in element_text_lower for keyword in product_keywords)`. -/
def matchesAllKeywords (d : Dom) (product_name : String) (el : Nat) : Bool :=
  (productKeywords product_name).all
    (fun k => strContains (strLower (d.textContent el)) k)

/-- The resolution `click_product_image` performs for one candidate text
element: the keyword gate, then the adjacency walk, then the visibility
gate before the click (source lines 660-763).  Returns the image element
that gets clicked, or `none` when this candidate resolves nothing. -/
def resolveProductImageAt (d : Dom) (product_name : String) (el : Nat) : Option Nat :=
  if matchesAllKeywords d product_name el then
    match findAdjacentImage d el with
    | some i => if d.visible i then some i else none
    | none => none
  else none

/-! ## Supporting lemmas for the resolver claims -/

theorem find?_some_of_any {l : List String} {p : String → Bool}
    (h : l.any p = true) : ∃ x, l.find? p = some x := by
  cases hf : l.find? p with
  | some x => exact ⟨x, rfl⟩
  | none =>
    rw [List.any_eq_true] at h
    obtain ⟨x, hx, hpx⟩ := h
    exact absurd hpx (List.find?_eq_none.mp hf x hx)

theorem find?_none_of_all {l : List String} {p : String → Bool}
    (h : l.all (fun s => !p s) = true) : l.find? p = none := by
  apply List.find?_eq_none.mpr
  intro x hx
  have := List.all_eq_true.mp h x hx
  simp at this
  simp [this]

/-! ## Claims about the ActionTracker -/

/-- Claim C1: for every sequence of append calls (raw `add_action` or
any `add_*` helper) run against a freshly started tracker,
`get_actions` returns exactly one record per call, in call order — so
positions `0..n-1` list the appends with no gap, reordering or
merging. -/
theorem C1_append_order (now : String) (calls : List ActionTracker.AppendCall) :
    ((ActionTracker.init.start now).run calls).get_actions
        = calls.map ActionTracker.recordOf ∧
    (((ActionTracker.init.start now).run calls).get_actions).length = calls.length := by
  have hrun : ((ActionTracker.init.start now).run calls).get_actions
      = calls.map ActionTracker.recordOf := by
    show ((ActionTracker.init.start now).run calls).actions = _
    rw [ActionTracker.run_actions]
    simp [ActionTracker.start, ActionTracker.init]
  exact ⟨hrun, by rw [hrun]; exact List.length_map _ _⟩

/-- Claim C2 (code bug): `stop()` does not seal the log.  Appending
after `stop()` still grows the sequence returned by `get_actions`,
contradicting the spec (and the docstring of `stop`, which promises to
stop tracking).  Concretely: `start`; `stop`; `add_navigation` leaves
the post-stop record in the log. -/
theorem C2_stop_does_not_seal :
    ((((ActionTracker.init.start "t0").stop "t1").add_navigation "t2" "https://x.test").get_actions
        = [{ type := "navigate", timestamp := "t2", url := some "https://x.test" }]) ∧
    ((((ActionTracker.init.start "t0").stop "t1").add_navigation "t2" "https://x.test").get_actions
        ≠ (((ActionTracker.init.start "t0").stop "t1")).get_actions) := by
  exact ⟨rfl, by decide⟩

/-! ## Claims about the search-box resolver -/

/-- Claim C6, amended: when the Apple-specific tier-1 recipe does not
resolve first (the URL is not an apple.com one, or no Apple-specific
input is visible), a visible tier-2 match makes
`find_search_box_universal` return the `direct_selector` method and the
Language Inference Service is never invoked. -/
theorem C6_tier2_precedence (p : Page)
    (happle : strContains (strLower p.url) "apple.com" = false ∨
              appleInputSelectors.all (fun s => !p.visible s) = true)
    (hvis : commonSelectors.any p.visible = true) :
    (find_search_box_universal p).1.method = some "direct_selector" ∧
    (find_search_box_universal p).2 = false := by
  obtain ⟨sel, hsel⟩ := find?_some_of_any hvis
  have happleHit :
      (if strContains (strLower p.url) "apple.com" then
        match appleInputSelectors.find? p.visible with
        | some sel =>
          some { found := true, input_selector := some sel,
                 button_selector := some appleButton, method := some "apple_specific" }
        | none => none
      else none : Option SearchBoxResult) = none := by
    rcases happle with h | h
    · simp [h]
    · rw [find?_none_of_all h]
      split <;> rfl
  unfold find_search_box_universal
  rw [happleHit, hsel]
  exact ⟨rfl, rfl⟩

/-- Witness for C6 on a concrete non-Apple page where the tier-2
pattern `#search` is visible. -/
def genericPage : Page :=
  { url := "https://x.test", visible := fun s => s == "#search",
    present := fun _ => false }

theorem C6_tier2_precedence_witness :
    (find_search_box_universal genericPage).1.method = some "direct_selector" ∧
    (find_search_box_universal genericPage).2 = false :=
  C6_tier2_precedence genericPage (Or.inl (by decide)) (by decide)

/-- An apple.com page on which the tier-2 pattern `input[name='q']` is
visible; the same selector sits in the Apple-specific list, so tier 1
claims it first. -/
def appleOverlapPage : Page :=
  { url := "https://www.apple.com",
    visible := fun s => s == "input[name=\x27q\x27]",
    present := fun _ => false }

/-- Counterexample to claim C6 as stated: this page yields a visible
match for the tier-2 pattern `input[name='q']`, yet the returned result
is tagged `apple_specific`, not `direct_selector`: the Apple-specific
tier-1 branch of `find_search_box_universal` resolves the same selector
first. -/
theorem C6_counterexample :
    appleOverlapPage.visible "input[name=\x27q\x27]" = true ∧
    "input[name=\x27q\x27]" ∈ commonSelectors ∧
    (find_search_box_universal appleOverlapPage).1.method = some "apple_specific" ∧
    (find_search_box_universal appleOverlapPage).1.method ≠ some "direct_selector" := by
  refine ⟨by decide, by decide, by decide, by decide⟩

/-- Claim C8, amended: when every strategy fails (no Apple-specific or
tier-2 selector is visible, the inference service yields nothing, the
markup scan yields nothing), `find_search_box_universal` returns the
bare `{found: False}` dict as a normal value — it carries no list of
attempted strategies (there is no such key), and the totality of the
embedding reflects that the outer `try` never lets an exception
escape. -/
theorem C8_exhaustion (p : Page)
    (happle : appleInputSelectors.all (fun s => !p.visible s) = true)
    (hcommon : commonSelectors.all (fun s => !p.visible s) = true)
    (hai : p.aiSelector = none)
    (hsoup : p.soupSelector = none) :
    find_search_box_universal p = ({ found := false }, true) := by
  unfold find_search_box_universal
  rw [find?_none_of_all happle, find?_none_of_all hcommon, hai, hsoup]
  split <;> rfl

/-- A generic page on which every strategy fails. -/
def genericFailPage : Page :=
  { url := "https://x.test", visible := fun _ => false, present := fun _ => false }

/-- An apple.com page on which every strategy fails; the run
additionally attempts the five Apple-specific selectors. -/
def appleFailPage : Page :=
  { url := "https://www.apple.com", visible := fun _ => false, present := fun _ => false }

theorem C8_exhaustion_witness :
    find_search_box_universal genericFailPage = ({ found := false }, true) :=
  C8_exhaustion genericFailPage (by decide) (by decide) rfl rfl

/-- Counterexample to claim C8 as stated: two exhausted runs that
attempt different strategy sets (the apple.com run additionally probes
the five vendor-specific selectors) return the identical bare
`{found: False}` record, whose only key is `found` — so the NotFound
result cannot and does not carry the list of attempted strategies. -/
theorem C8_counterexample :
    (find_search_box_universal appleFailPage).1 = (find_search_box_universal genericFailPage).1 ∧
    (find_search_box_universal genericFailPage).1 =
      { found := false, input_selector := none, button_selector := none, method := none } := by
  refine ⟨by decide, by decide⟩

/-! ## Claim about the image-adjacency walk -/

/-- Claim C7: in the adjacency walk of `click_product_image`, a text
element matching all product keywords that is not itself an image, has
no descendant image, and whose parent and grandparent probes yield no
image, resolves to the image inside its previous sibling — the search
tries, in strict order, the element itself, a descendant image, the
parent probe, the grandparent probe, the previous then next sibling,
then up to 5 ancestor levels, exactly as `findAdjacentImage` is
defined. -/
theorem C7_sibling_image (d : Dom) (pn : String) (el s i : Nat)
    (hkw : matchesAllKeywords d pn el = true)
    (htag : (d.tag el == "img") = false)
    (hdesc : d.queryImg el = none)
    (hpar : (d.parent el).bind d.queryImg = none)
    (hgrand : ((d.parent el).bind d.parent).bind d.queryImg = none)
    (hprev : d.prevSibling el = some s)
    (hsib : d.queryImg s = some i)
    (hvis : d.visible i = true) :
    resolveProductImageAt d pn el = some i := by
  unfold resolveProductImageAt findAdjacentImage
  rw [hkw, htag, hdesc, hpar, hgrand, hprev]
  simp [hsib, hvis]

/-- A concrete DOM oracle for C7: element 0 holds the text
"iPhone 17", its previous sibling 1 contains the image 2, and the
parent/grandparent probes answer no image. -/
def domC7 : Dom :=
  { tag := fun n => if n == 2 then "img" else "div",
    textContent := fun n => if n == 0 then "Apple iPhone 17 Pro" else "",
    queryImg := fun n => if n == 1 then some 2 else none,
    parent := fun n => if n == 0 then some 3 else none,
    prevSibling := fun n => if n == 0 then some 1 else none,
    nextSibling := fun _ => none,
    visible := fun n => n == 2 }

theorem C7_sibling_image_witness :
    resolveProductImageAt domC7 "iPhone 17" 0 = some 2 :=
  C7_sibling_image domC7 "iPhone 17" 0 1 2 (by decide) (by decide) (by decide)
    (by decide) (by decide) (by decide) (by decide) (by decide)

/-! ## Supporting lemmas for the compiler claims -/

theorem str_ne_empty_of_ne_nil (a t : String) (h : a.data ≠ []) : a ++ t ≠ "" := by
  intro he
  have hd := congrArg String.data he
  rw [data_append] at hd
  exact h (List.append_eq_nil.mp (by simpa using hd)).1

theorem isStepLine_append_marker (s : String) :
    isStepLine ("        # Step " ++ s) = true := by
  simp only [isStepLine, strStarts, data_append]
  exact prefix_append_self _ _

theorem isStepLine_append_false (f : String)
    (h : listDiverges "        # Step ".data f.data = true) (s : String) :
    isStepLine (f ++ s) = false := by
  simp only [isStepLine, strStarts, data_append]
  exact diverges_not_prefixOf _ _ _ h

theorem filter_headerLines (q t : String) :
    (headerLines q t).filter isStepLine = [] := by
  rw [List.filter_eq_nil_iff]
  intro a ha
  unfold headerLines at ha
  rw [List.mem_append, List.mem_append] at ha
  rcases ha with (h | h) | h
  · simp only [List.mem_cons, List.not_mem_nil, or_false] at h
    rcases h with rfl | rfl | rfl
    · decide
    · decide
    · simp [isStepLine_append_false "Generated from execution on: " (by decide)]
  · cases hq : (q == "") <;> rw [hq] at h
    · simp only [List.mem_cons, List.not_mem_nil, or_false, if_false, Bool.false_eq_true] at h
      rcases h with rfl
      simp [isStepLine_append_false "Original query: " (by decide)]
    · simp at h
  · simp only [List.mem_cons, List.not_mem_nil, or_false] at h
    rcases h with rfl|rfl|rfl|rfl|rfl|rfl|rfl|rfl|rfl|rfl|rfl|rfl
    all_goals decide

theorem filter_footerLines : footerLines.filter isStepLine = [] := by decide

/-! ## Claims about the script compiler -/

/-- Claim C3: two runs of `generate` on the same log and query differ
only in the generation-timestamp comment, which is always line index 2:
the outputs have the same number of lines, line 2 is the timestamp
comment, and every other line position agrees between the two runs. -/
theorem C3_determinism (L : List Action) (q t1 t2 : String) :
    (generateLines L q t1).length = (generateLines L q t2).length ∧
    (generateLines L q t1).get? 2 = some ("Generated from execution on: " ++ t1) ∧
    (∀ i, i ≠ 2 → (generateLines L q t1).get? i = (generateLines L q t2).get? i) := by
  have hshape : ∀ t, generateLines L q t =
      "\"\"\"" :: "Auto-generated Playwright test script" ::
      ("Generated from execution on: " ++ t) ::
      ((if q == "" then [] else ["Original query: " ++ q]) ++
        (["\"\"\"", "import asyncio",
          "from playwright.async_api import async_playwright",
          "", "",
          "async def test_auto_generated():",
          "    \"\"\"Auto-generated test based on actual execution.\"\"\"",
          "    browser = await async_playwright().start()",
          "    chromium = await browser.chromium.launch(headless=False, slow_mo=500)",
          "    page = await chromium.new_page()",
          "",
          "    try:"] ++ (actionsLines 0 L ++ footerLines))) := by
    intro t
    simp [generateLines, headerLines, List.append_assoc]
  refine ⟨?_, ?_, ?_⟩
  · rw [hshape t1, hshape t2]
    simp
  · rw [hshape t1]
    rfl
  · intro i hi
    rw [hshape t1, hshape t2]
    rcases i with _ | _ | _ | n
    · rfl
    · rfl
    · exact absurd rfl hi
    · rfl

theorem C3_determinism_witness :
    (generateLines [] "q" "T1").get? 0 = (generateLines [] "q" "T2").get? 0 :=
  (C3_determinism [] "q" "T1" "T2").2.2 0 (by decide)

/-- Claim C9: on an empty action log `generate` still emits the full
runnable skeleton: zero step blocks, with the setup (`import`, the
`try:` opener) and the teardown (`except`, `finally`, browser close, the
main entry point) all present. -/
theorem C9_empty_log (q t : String) :
    (generateLines [] q t).filter isStepLine = [] ∧
    "    try:" ∈ generateLines [] q t ∧
    "    except Exception as e:" ∈ generateLines [] q t ∧
    "    finally:" ∈ generateLines [] q t ∧
    "        await chromium.close()" ∈ generateLines [] q t ∧
    "import asyncio" ∈ generateLines [] q t ∧
    "    asyncio.run(test_auto_generated())" ∈ generateLines [] q t := by
  refine ⟨?_, ?_, ?_, ?_, ?_, ?_, ?_⟩
  · show (headerLines q t ++ actionsLines 0 [] ++ footerLines).filter isStepLine = []
    rw [List.filter_append, List.filter_append, filter_headerLines, filter_footerLines]
    rfl
  all_goals
    simp [generateLines, headerLines, footerLines, actionsLines]

/-! ## Claim C10: verbatim, unescaped interpolation -/

/-- Strip an expected prefix from a character list. -/
def stripPfxChars : List Char → List Char → Option (List Char)
  | [], s => some s
  | _ :: _, [] => none
  | p :: ps, c :: cs => if p == c then stripPfxChars ps cs else none

/-- Strip an expected suffix from a character list. -/
def stripSfxChars (sfx s : List Char) : Option (List Char) :=
  (stripPfxChars sfx.reverse s.reverse).map List.reverse

/-- No double-quote character occurs in the list. -/
def quoteFree (l : List Char) : Bool := l.all (fun c => c != '\x22')

/-- Recognizer for a well-formed emitted click/press lookup line: the
fixed code before the opening quote, then a double-quoted Python string
literal that terminates at its first quote character (the generator
never escapes), then the fixed `, timeout=5000)` tail. -/
def wellFormedWaitSelectorLine (line : String) : Bool :=
  match stripPfxChars "        element = await page.wait_for_selector(\"".data line.data with
  | none => false
  | some rest =>
    match stripSfxChars "\", timeout=5000)".data rest with
    | none => false
    | some mid => quoteFree mid

theorem stripPfx_append : ∀ (p s : List Char), stripPfxChars p (p ++ s) = some s := by
  intro p
  induction p with
  | nil => intro s; rfl
  | cons c cs ih => intro s; simp [stripPfxChars, ih]

theorem stripSfx_append (sfx m : List Char) : stripSfxChars sfx (m ++ sfx) = some m := by
  unfold stripSfxChars
  rw [List.reverse_append, stripPfx_append]
  simp

theorem wellFormed_waitSelLine (sel : String) :
    wellFormedWaitSelectorLine (waitSelLine sel) = quoteFree sel.data := by
  unfold wellFormedWaitSelectorLine waitSelLine
  rw [data_append, data_append, stripPfx_append]
  show (match stripSfxChars "\", timeout=5000)".data (sel.data ++ "\", timeout=5000)".data) with
       | none => false
       | some mid => quoteFree mid) = quoteFree sel.data
  rw [stripSfx_append]

/-- Claim C10: `generate` interpolates recorded selector and text values
verbatim inside double-quoted Python string literals, with no escaping:
the emitted lookup line is literally prefix ++ selector ++ suffix (so
the value appears character for character in the output), the fill line
embeds the recorded text the same way, the emitted line parses as a
well-formed simple string literal exactly when the selector contains no
double quote, and for the concrete selector `div[id="x"]` the emitted
line is not a well-formed literal. -/
theorem C10_verbatim_embedding (sel text q ts : String) :
    waitSelLine sel ∈
      generateLines [{ type := "click", selector := some sel, element_type := some "element" }] q ts ∧
    ("        await input.fill(\"" ++ (text ++ "\")")) ∈
      generateLines [{ type := "fill", selector := some sel, text := some text }] q ts ∧
    wellFormedWaitSelectorLine (waitSelLine sel) = quoteFree sel.data ∧
    wellFormedWaitSelectorLine (waitSelLine "div[id=\"x\"]") = false := by
  refine ⟨?_, ?_, wellFormed_waitSelLine sel, ?_⟩
  · simp [generateLines, actionsLines, actionLines,
      show isImageElementType "element" = false from by decide]
  · simp [generateLines, actionsLines, actionLines]
  · rw [wellFormed_waitSelLine]
    decide

/-! ## Claim C4: image-click broadening -/

/-- Claim C4: for a click record whose `element_type` denotes an image
(the source test `"product_image" in element_type or "image" in
element_type.lower()`), the generated step is the broadened fallback
block that enumerates all images and clicks the first visible one — the
block is independent of the recorded selector, contains the
enumerate-all-images line, and never contains the literal
`wait_for_selector` line for the recorded selector.  For a click record
whose `element_type` does not denote an image, the literal
`wait_for_selector` line for the recorded selector is emitted. -/
theorem C4_image_click_broadening (i : Nat) (sel et : String) :
    (isImageElementType et = true →
      (∀ sel2, actionLines i { type := "click", selector := some sel, element_type := some et }
          = actionLines i { type := "click", selector := some sel2, element_type := some et }) ∧
      "        images = await page.query_selector_all(\"img\")"
          ∈ actionLines i { type := "click", selector := some sel, element_type := some et } ∧
      waitSelLine sel
          ∉ actionLines i { type := "click", selector := some sel, element_type := some et }) ∧
    (isImageElementType et = false →
      waitSelLine sel
          ∈ actionLines i { type := "click", selector := some sel, element_type := some et }) := by
  constructor
  · intro h
    have hred : actionLines i { type := "click", selector := some sel, element_type := some et } =
        ["        # Step " ++ (toString (i+1) ++ (": Click " ++ et)),
         "        # Find product image (using flexible selector)",
         "        images = await page.query_selector_all(\"img\")",
         "        for img in images:",
         "            try:",
         "                is_visible = await img.is_visible()",
         "                if is_visible:",
         "                    await img.scroll_into_view_if_needed()",
         "                    await img.click()",
         "                    break",
         "            except:",
         "                continue",
         "        await asyncio.sleep(2)",
         "        await page.wait_for_load_state(\"networkidle\", timeout=10000)",
         ""] := by
      simp [actionLines, h]
    refine ⟨?_, ?_, ?_⟩
    · intro sel2
      simp [actionLines, h]
    · rw [hred]
      simp
    · rw [hred]
      unfold waitSelLine
      intro hmem
      simp only [List.mem_cons, List.not_mem_nil, or_false] at hmem
      rcases hmem with h1|h1|h1|h1|h1|h1|h1|h1|h1|h1|h1|h1|h1|h1|h1
      all_goals
        first
        | exact str_ne_of_diverge _ _ _ _ (by decide) h1
        | exact str_ne_lit_of_diverge _ _ _ (by decide) h1
        | exact str_ne_empty_of_ne_nil _ _ (by decide) h1
  · intro h
    simp [actionLines, h]

theorem C4_image_click_broadening_witness :
    (waitSelLine "img.product" ∉
      actionLines 0 { type := "click", selector := some "img.product", element_type := some "product_image" }) ∧
    (waitSelLine "#btn" ∈
      actionLines 0 { type := "click", selector := some "#btn", element_type := some "element" }) :=
  ⟨((C4_image_click_broadening 0 "img.product" "product_image").1 (by decide)).2.2,
   (C4_image_click_broadening 0 "#btn" "element").2 (by decide)⟩

/-! ## Claim C5: one annotated step block per record, in order -/

theorem filter_actionLines (i : Nat) (a : Action) (h : wellFormedAction a = true) :
    (actionLines i a).filter isStepLine = [stepHeader i a] := by
  unfold wellFormedAction at h
  simp only [Bool.or_eq_true, Bool.and_eq_true, beq_iff_eq] at h
  rcases h with ((((h | h) | h) | h) | h) | ⟨h, hw⟩
  · simp [actionLines, stepHeader, h, List.filter_cons,
      isStepLine_append_marker,
      isStepLine_append_false "        await page.goto(\"" (by decide),
      show isStepLine "        await asyncio.sleep(2)" = false from by decide,
      show isStepLine "" = false from by decide]
  · by_cases himg : isImageElementType (a.element_type.getD "element") = true
    · simp [actionLines, stepHeader, h, himg, List.filter_cons,
        isStepLine_append_marker,
        show isStepLine "        # Find product image (using flexible selector)" = false from by decide,
        show isStepLine "        images = await page.query_selector_all(\"img\")" = false from by decide,
        show isStepLine "        for img in images:" = false from by decide,
        show isStepLine "            try:" = false from by decide,
        show isStepLine "                is_visible = await img.is_visible()" = false from by decide,
        show isStepLine "                if is_visible:" = false from by decide,
        show isStepLine "                    await img.scroll_into_view_if_needed()" = false from by decide,
        show isStepLine "                    await img.click()" = false from by decide,
        show isStepLine "                    break" = false from by decide,
        show isStepLine "            except:" = false from by decide,
        show isStepLine "                continue" = false from by decide,
        show isStepLine "        await asyncio.sleep(2)" = false from by decide,
        show isStepLine "        await page.wait_for_load_state(\"networkidle\", timeout=10000)" = false from by decide,
        show isStepLine "" = false from by decide]
    · have himg2 : isImageElementType (a.element_type.getD "element") = false := by
        cases hx : isImageElementType (a.element_type.getD "element")
        · rfl
        · exact absurd hx himg
      simp [actionLines, stepHeader, h, himg2, List.filter_cons, waitSelLine,
        isStepLine_append_marker,
        isStepLine_append_false "        element = await page.wait_for_selector(\"" (by decide),
        show isStepLine "        await element.click()" = false from by decide,
        show isStepLine "        await asyncio.sleep(1)" = false from by decide,
        show isStepLine "" = false from by decide]
  · simp [actionLines, stepHeader, h, List.filter_cons,
      isStepLine_append_marker,
      isStepLine_append_false "        input = await page.wait_for_selector(\"" (by decide),
      isStepLine_append_false "        await input.fill(\"" (by decide),
      show isStepLine "        await input.click()" = false from by decide,
      show isStepLine "        await input.fill(\"\")" = false from by decide,
      show isStepLine "        await asyncio.sleep(0.5)" = false from by decide,
      show isStepLine "" = false from by decide]
  · simp [actionLines, stepHeader, h, List.filter_cons, waitSelLine,
      isStepLine_append_marker,
      isStepLine_append_false "        element = await page.wait_for_selector(\"" (by decide),
      isStepLine_append_false "        await element.press(\"" (by decide),
      show isStepLine "        await asyncio.sleep(1)" = false from by decide,
      show isStepLine "" = false from by decide]
  · simp [actionLines, stepHeader, h, List.filter_cons,
      isStepLine_append_marker,
      isStepLine_append_false "        await asyncio.sleep(" (by decide),
      show isStepLine "" = false from by decide]
  · rcases hw with hw | ⟨hw, htr⟩
    · simp [actionLines, stepHeader, h, hw, List.filter_cons, List.filter_append,
        isStepLine_append_marker,
        isStepLine_append_false "        await page.wait_for_load_state(\"networkidle\", timeout=" (by decide),
        show isStepLine "" = false from by decide]
    · simp [actionLines, stepHeader, h, hw, htr, List.filter_cons, List.filter_append,
        isStepLine_append_marker,
        isStepLine_append_false "        await page.wait_for_selector(\"" (by decide),
        show isStepLine "" = false from by decide]

theorem actionsLines_filter :
    ∀ (L : List Action) (i : Nat), L.all wellFormedAction = true →
      (actionsLines i L).filter isStepLine = stepHeaders i L := by
  intro L
  induction L with
  | nil => intro i _; rfl
  | cons a r ih =>
    intro i h
    rw [List.all_cons, Bool.and_eq_true] at h
    show (actionLines i a ++ actionsLines (i+1) r).filter isStepLine = _
    rw [List.filter_append, filter_actionLines i a h.1, ih (i+1) h.2]
    rfl

theorem stepHeaders_length :
    ∀ (L : List Action) (i : Nat), (stepHeaders i L).length = L.length := by
  intro L
  induction L with
  | nil => intro i; rfl
  | cons a r ih => intro i; simp [stepHeaders, ih]

/-- Claim C5, amended: compilation is order-preserving and one-to-one
for every log whose records all have one of the six known types,
provided additionally each `wait` record carries `wait_type` `"load"`
or `"selector"` with a truthy selector: the step-annotation lines of the
generated script are exactly the per-record annotations, one per record,
in log order.  (Without the extra `wait` proviso the claim fails, see
the counterexample.) -/
theorem C5_one_block_per_record (L : List Action) (q t : String)
    (h : L.all wellFormedAction = true) :
    (generateLines L q t).filter isStepLine = stepHeaders 0 L ∧
    (stepHeaders 0 L).length = L.length := by
  constructor
  · show (headerLines q t ++ actionsLines 0 L ++ footerLines).filter isStepLine = _
    rw [List.filter_append, List.filter_append, filter_headerLines,
      filter_footerLines, actionsLines_filter L 0 h]
    simp
  · exact stepHeaders_length L 0

/-- The five-record end-to-end log of the spec (navigate, click the
search icon, fill, press Enter, wait for load). -/
def logC5 : List Action :=
  [{ type := "navigate", url := some "https://x.test" },
   { type := "click", selector := some "#icon", element_type := some "search_icon" },
   { type := "fill", selector := some "#q", text := some "widget" },
   { type := "press", selector := some "#q", key := some "Enter" },
   { type := "wait", wait_type := some "load", timeout := some 10000 }]

theorem C5_one_block_per_record_witness :
    (generateLines logC5 "iPhone 15" "TS").filter isStepLine = stepHeaders 0 logC5 ∧
    (stepHeaders 0 logC5).length = logC5.length :=
  C5_one_block_per_record logC5 "iPhone 15" "TS" (by decide)

/-- Counterexample to claim C5 as stated: a one-record log whose record
has the known type `wait` (with `wait_type` `"selector"` and no
selector, as `add_wait("selector")` produces) compiles to a script with
zero step-annotation blocks instead of exactly one — the `wait` branch
of the generator emits nothing in this case, so the record is
skipped. -/
theorem C5_counterexample :
    ((generateLines [{ type := "wait", wait_type := some "selector" }] "" "TS").filter isStepLine).length = 0 ∧
    ([{ type := "wait", wait_type := some "selector" }] : List Action).length = 1 := by
  exact ⟨by decide, rfl⟩

end WS
